import Mathlib

/-!
Verification development for the foundry-mcp-server process-orchestration layer.

The definitions below are a shallow embedding of the TypeScript source:
  - `src/utils.ts` (the Command Runner `runForge` / `runCast`),
  - `src/tools/cast.ts` (the `cast_send` handler),
  - `src/tools/anvil.ts` (the Background Process Registry: `anvil_start`,
    `anvil_stop`, `anvil_status`, `cleanupAnvil`), and
  - `src/tools/chisel.ts` (the Interactive Session Driver
    `runChiselWithScript` and the `chisel_execute_code` script builder).

External effects (promise settlement of `execFile`, subprocess behaviour,
clock reads via `Date.now()`, the file system) are passed in as explicit
parameters, so every handler becomes a total function from its inputs and
the environment to its returned payload plus an effect trace.
-/

/- ## JavaScript value helpers

JS conditionals such as `if (rpcUrl)` and defaulting such as
`a || b` test truthiness: for a `string | undefined` value, `undefined`
and the empty string are falsy, every other string is truthy. -/

/-- Truthiness of a `string | undefined` JavaScript value. -/
def jsTruthy : Option String → Bool
  | some s => !(s == "")
  | none => false

/-- JavaScript `a || b` where `a : string | undefined` and `b : string`. -/
def jsOrStr : Option String → String → String
  | some s, b => if s == "" then b else s
  | none, b => b

/-- JavaScript `a || b` where both operands are `string | undefined`. -/
def jsOrOpt : Option String → Option String → Option String
  | some s, b => if s == "" then b else some s
  | none, b => b

/- ## Command Runner (src/utils.ts) -/

/-- Result shape returned by `runForge` and `runCast` (`CommandResult`
in `src/types.ts`): `\x7b success, stdout, stderr \x7d`. -/
structure CommandResult where
  success : Bool
  stdout : String
  stderr : String
deriving DecidableEq

/-- The error object carried by a rejected `execFileAsync` promise.
`stdout` and `stderr` are the captured streams when the subprocess ran
(nonzero exit) and are absent on a launch failure; `message` is the
Error message. The source reads them as `err.stdout?.toString?.()`,
`err.stderr?.toString?.()` and `err.message`, each of which can be
absent, hence the `Option` fields. -/
structure ExecError where
  stdout : Option String
  stderr : Option String
  message : Option String
deriving DecidableEq

/-- Settlement of the `execFileAsync` promise: fulfilled with the two
captured streams, or rejected with an `ExecError` (nonzero exit,
executable-not-found, or any other spawn failure all reject). -/
inductive ExecOutcome where
  | ok (stdout stderr : String)
  | err (e : ExecError)
deriving DecidableEq

/-- Embedding of `runForge` from `src/utils.ts`: `try` the invocation,
on fulfilment return success with the verbatim streams, on rejection
return `success := false` with `err.stdout?.toString?.() ?? ""` and
`err.stderr?.toString?.() ?? err.message ?? "forge failed"`. A total
function: the `catch` converts every rejection into a value. -/
def runForge : ExecOutcome → CommandResult
  | .ok out errStream => { success := true, stdout := out, stderr := errStream }
  | .err e =>
      { success := false
        stdout := e.stdout.getD ""
        stderr := e.stderr.getD (e.message.getD ("forge failed")) }

/-- Embedding of `runCast` from `src/utils.ts`; identical to `runForge`
except for the synthesized fallback message `"cast failed"`. -/
def runCast : ExecOutcome → CommandResult
  | .ok out errStream => { success := true, stdout := out, stderr := errStream }
  | .err e =>
      { success := false
        stdout := e.stdout.getD ""
        stderr := e.stderr.getD (e.message.getD ("cast failed")) }

/- ## The cast_send handler (src/tools/cast.ts, lines 119-167) -/

/-- Parameters of the `cast_send` tool (optional zod fields become
`Option`; `args` and `extraArgs` default to `[]` in the handler
signature). The `from` field is renamed `fromAddr` because `from` is a
Lean keyword. -/
structure CastSendParams where
  contractAddress : String
  signature : String
  args : List String
  privateKey : Option String
  fromAddr : Option String
  value : Option String
  gasLimit : Option String
  gasPrice : Option String
  rpcUrl : Option String
  extraArgs : List String
deriving DecidableEq

/-- The `--private-key` fragment of the `cast send` argument vector:
`const keyToUse = privateKey || DEFAULT_PRIVATE_KEY; if (keyToUse)
castArgs.push("--private-key", keyToUse)`. -/
def castSendKeyPart (p : CastSendParams) (defaultPrivateKey : Option String) : List String :=
  let keyToUse := jsOrOpt p.privateKey defaultPrivateKey
  if jsTruthy keyToUse then ["--private-key", keyToUse.getD ""] else []

/-- The full `cast send` argument vector assembled by the handler, in
source push order: `send`, optional `--rpc-url`, optional
`--private-key`, optional `--from`, `--value`, `--gas-limit`,
`--gas-price`, then address, signature, args and extraArgs. -/
def castSendArgs (p : CastSendParams) (defaultPrivateKey : Option String) : List String :=
  ["send"]
  ++ (if jsTruthy p.rpcUrl then ["--rpc-url", p.rpcUrl.getD ""] else [])
  ++ castSendKeyPart p defaultPrivateKey
  ++ (if jsTruthy p.fromAddr then ["--from", p.fromAddr.getD ""] else [])
  ++ (if jsTruthy p.value then ["--value", p.value.getD ""] else [])
  ++ (if jsTruthy p.gasLimit then ["--gas-limit", p.gasLimit.getD ""] else [])
  ++ (if jsTruthy p.gasPrice then ["--gas-price", p.gasPrice.getD ""] else [])
  ++ [p.contractAddress, p.signature] ++ p.args ++ p.extraArgs

/-- Observable outcome of one `cast_send` invocation: the assembled
argument vector, whether the handler invoked the cast runner (it
always does: the handler has no credential guard and unconditionally
reaches `await runCast(castArgs)`), and the payload fields. -/
structure CastSendOutput where
  castArgs : List String
  spawnedCast : Bool
  success : Bool
  stdout : String
  stderr : String
deriving DecidableEq

/-- Embedding of the `cast_send` handler body (src/tools/cast.ts lines
119-167): assemble the argument vector, call `runCast`, and wrap the
result into the payload. `defaultPrivateKey` is `DEFAULT_PRIVATE_KEY`
from `src/utils.ts`, i.e. `process.env.FOUNDRY_PRIVATE_KEY`; `outcome`
is the settlement of the underlying `execFile` promise. -/
def castSend (p : CastSendParams) (defaultPrivateKey : Option String)
    (outcome : ExecOutcome) : CastSendOutput :=
  let args := castSendArgs p defaultPrivateKey
  let r := runCast outcome
  { castArgs := args
    spawnedCast := true
    success := r.success
    stdout := r.stdout
    stderr := r.stderr }

/-- Example parameter set: no explicit `privateKey`. -/
def castSendNoKeyExample : CastSendParams :=
  { contractAddress := "0x1111111111111111111111111111111111111111"
    signature := "transfer(address,uint256)"
    args := ["0x2222222222222222222222222222222222222222", "1"]
    privateKey := none
    fromAddr := none
    value := none
    gasLimit := none
    gasPrice := none
    rpcUrl := none
    extraArgs := [] }

/-- C1 counterexample: with no explicit `privateKey` and
`FOUNDRY_PRIVATE_KEY` unset, the `cast_send` handler still invokes the
cast runner, and when that invocation succeeds the payload reports
`success = true` — contradicting the claim that such an invocation
returns `success = false` with a missing-credential message and does
not spawn the underlying cast executable. -/
theorem castSend_noKey_counterexample :
    (castSend castSendNoKeyExample none (ExecOutcome.ok ("0xhash") (""))).spawnedCast = true
    ∧ (castSend castSendNoKeyExample none (ExecOutcome.ok ("0xhash") (""))).success = true := by
  constructor <;> rfl

/-- C1 (amended): when no explicit `privateKey` is given and
`FOUNDRY_PRIVATE_KEY` is unset, `cast_send` has no missing-credential
guard: it assembles the argument vector with an empty `--private-key`
fragment, still invokes the cast runner, and the payload `success`
mirrors the runner result. -/
theorem castSend_noKey_spawns :
    ∀ (p : CastSendParams) (outcome : ExecOutcome),
      p.privateKey = none →
      castSendKeyPart p none = []
      ∧ (castSend p none outcome).spawnedCast = true
      ∧ (castSend p none outcome).success = (runCast outcome).success := by
  intro p outcome hk
  refine ⟨?_, rfl, rfl⟩
  simp [castSendKeyPart, jsOrOpt, jsTruthy, hk]

/-- C1 witness: the amended statement at a concrete input. -/
theorem castSend_noKey_spawns_witness :
    castSendKeyPart castSendNoKeyExample none = []
    ∧ (castSend castSendNoKeyExample none (ExecOutcome.err
        { stdout := none, stderr := none, message := some ("connection refused") })).spawnedCast = true
    ∧ (castSend castSendNoKeyExample none (ExecOutcome.err
        { stdout := none, stderr := none, message := some ("connection refused") })).success
      = (runCast (ExecOutcome.err
        { stdout := none, stderr := none, message := some ("connection refused") })).success :=
  castSend_noKey_spawns castSendNoKeyExample
    (ExecOutcome.err { stdout := none, stderr := none, message := some ("connection refused") }) rfl

/-- C4: for every rejection of the underlying `execFile` promise
(nonzero exit, executable-not-found, or spawn failure), `runCast` and
`runForge` return `success = false` as a value, with `stderr` taken
verbatim from the error stream when present and otherwise synthesized
from the error message (falling back to a fixed description). Both
runners are total functions, so no failure escapes as an exception. -/
theorem runCommand_failure_isValue :
    ∀ e : ExecError,
      (runCast (ExecOutcome.err e)).success = false
      ∧ (runForge (ExecOutcome.err e)).success = false
      ∧ (∀ s, e.stderr = some s →
          (runCast (ExecOutcome.err e)).stderr = s
          ∧ (runForge (ExecOutcome.err e)).stderr = s)
      ∧ (e.stderr = none →
          (runCast (ExecOutcome.err e)).stderr = e.message.getD ("cast failed")
          ∧ (runForge (ExecOutcome.err e)).stderr = e.message.getD ("forge failed")) := by
  intro e
  refine ⟨rfl, rfl, ?_, ?_⟩
  · intro s hs
    constructor <;> simp [runCast, runForge, hs]
  · intro hs
    constructor <;> simp [runCast, runForge, hs]

/-- C4 witness: a launch failure (no captured streams, only an error
message) at a concrete input. -/
theorem runCommand_failure_isValue_witness :
    (runCast (ExecOutcome.err { stdout := none, stderr := none, message := none })).success = false
    ∧ (runCast (ExecOutcome.err
        { stdout := none, stderr := none, message := none })).stderr = "cast failed" :=
  ⟨(runCommand_failure_isValue { stdout := none, stderr := none, message := none }).1,
   ((runCommand_failure_isValue { stdout := none, stderr := none, message := none }).2.2.2 rfl).1⟩

/- ## Background Process Registry (src/tools/anvil.ts) -/

/-- The held child-process handle (module-level `anvilProcess`). `pid`
is `Option` because Node leaves `ChildProcess.pid` undefined when the
launch failed; `killed` is the `ChildProcess.killed` flag, which
records only whether this server itself called `kill` on the handle —
it does not track whether the underlying OS process is still alive. -/
structure ChildHandle where
  pid : Option Nat
  killed : Bool
deriving DecidableEq

/-- Behaviour of one `spawn("anvil", args, ...)` call. Per Node
semantics, `spawn` throws synchronously only for invalid invocation
arguments; an executable that cannot be launched (ENOENT and the like)
still yields a handle synchronously, and the launch failure is
delivered later as an asynchronous `error` event on that handle. -/
inductive SpawnResult where
  | syncThrow (message : String)
  | proc (pid : Option Nat) (errorEvent : Option String)
deriving DecidableEq

/-- Liveness test used verbatim by `anvil_start`, `anvil_stop`,
`anvil_status` and `cleanupAnvil`: `anvilProcess && !anvilProcess.killed`. -/
def anvilLive : Option ChildHandle → Bool
  | some h => !h.killed
  | none => false

/-- Error message of the already-running guard in `anvil_start`. -/
def anvilAlreadyRunningMsg : String :=
  "Anvil is already running. Use anvil_stop to stop it first."

/-- Observable outcome of one `anvil_start` invocation: the returned
payload fields, the new registry state, whether `spawn` was called,
and whether an `error` event fired on the new handle with no listener
attached (the handler registers none, so such an event propagates as
an uncaught exception in the host process). -/
structure AnvilStartResult where
  success : Bool
  errMsg : Option String
  pid : Option Nat
  message : Option String
  newState : Option ChildHandle
  spawned : Bool
  uncaughtErrorEvent : Bool
deriving DecidableEq

/-- Embedding of the `anvil_start` handler: if the held handle is live,
return the already-running failure without spawning; otherwise call
`spawn`. A synchronous throw is caught and returned as a failure
payload with the state unchanged (the assignment to `anvilProcess`
never ran). When `spawn` returns a handle the handler stores it,
replies `success := true` with `"Anvil started successfully"`
immediately, and attaches no `error` listener, so a later launch
failure surfaces as an uncaught `error` event. -/
def anvilStart (st : Option ChildHandle) (sr : SpawnResult) : AnvilStartResult :=
  if anvilLive st then
    { success := false
      errMsg := some anvilAlreadyRunningMsg
      pid := none
      message := none
      newState := st
      spawned := false
      uncaughtErrorEvent := false }
  else
    match sr with
    | .syncThrow m =>
        { success := false
          errMsg := some m
          pid := none
          message := none
          newState := st
          spawned := true
          uncaughtErrorEvent := false }
    | .proc p ev =>
        { success := true
          errMsg := none
          pid := p
          message := some ("Anvil started successfully")
          newState := some { pid := p, killed := false }
          spawned := true
          uncaughtErrorEvent := ev.isSome }

/-- Payload of `anvil_stop`. -/
structure AnvilStopPayload where
  success : Bool
  errMsg : Option String
deriving DecidableEq

/-- Embedding of the `anvil_stop` handler: fail when the held handle is
not live, otherwise send SIGTERM and clear the slot. -/
def anvilStop (st : Option ChildHandle) : Option ChildHandle × AnvilStopPayload :=
  if anvilLive st then
    (none, { success := true, errMsg := none })
  else
    (st, { success := false, errMsg := some ("No Anvil process is currently running") })

/-- Payload of `anvil_status`: `isRunning` is the liveness test and
`pid` is the held pid when running (`anvilProcess?.pid`), else null. -/
structure AnvilStatusPayload where
  isRunning : Bool
  pid : Option Nat
deriving DecidableEq

/-- Embedding of the `anvil_status` handler; a pure read of the slot. -/
def anvilStatus (st : Option ChildHandle) : AnvilStatusPayload :=
  { isRunning := anvilLive st
    pid := if anvilLive st then (match st with | some h => h.pid | none => none) else none }

/-- Embedding of `cleanupAnvil`: if the held handle is live, send
SIGTERM and clear the slot; otherwise do nothing. Returns the new slot
and whether a termination signal was sent. -/
def cleanupAnvil (st : Option ChildHandle) : Option ChildHandle × Bool :=
  if anvilLive st then (none, true) else (st, false)

/-- Events affecting the registry slot. `childExited` is the underlying
OS process terminating on its own: the source attaches no `exit` or
`close` listener to `anvilProcess`, so the slot and the `killed` flag
are untouched by it. -/
inductive AnvilEvent where
  | start (sr : SpawnResult)
  | stop
  | statusQuery
  | cleanup
  | childExited
deriving DecidableEq

/-- Effect of one event on the registry slot. -/
def anvilStep (st : Option ChildHandle) (e : AnvilEvent) : Option ChildHandle :=
  match e with
  | .start sr => (anvilStart st sr).newState
  | .stop => (anvilStop st).1
  | .statusQuery => st
  | .cleanup => (cleanupAnvil st).1
  | .childExited => st

/-- C3: evaluating the embedded `anvil_start` at the failing input — a
spawn of a missing `anvil` executable, which per Node semantics yields
a handle with no pid and a pending `error` event — shows the handler
reports `success = true` with `"Anvil started successfully"`, and the
launch failure then fires on a handle with no `error` listener,
propagating as an uncaught exception. The claim (and the spec's
propagation policy) requires `success = false` and no uncaught
propagation, so the code diverges from it here. -/
theorem anvilStart_launchFailure_reportsSuccess :
    (anvilStart none (SpawnResult.proc none (some ("spawn anvil ENOENT")))).success = true
    ∧ (anvilStart none (SpawnResult.proc none (some ("spawn anvil ENOENT")))).message
        = some ("Anvil started successfully")
    ∧ (anvilStart none (SpawnResult.proc none (some ("spawn anvil ENOENT")))).uncaughtErrorEvent
        = true := by
  refine ⟨rfl, rfl, rfl⟩

/-- C5: calling `anvil_start` while the held handle is live returns the
already-running failure, spawns nothing and leaves the handle
untouched; in particular two `start` calls in a row with no
intervening `stop` fail on the second call with the first handle
unchanged. -/
theorem anvilStart_alreadyRunning :
    ∀ (h : ChildHandle) (sr : SpawnResult), h.killed = false →
      ((anvilStart (some h) sr).success = false
        ∧ (anvilStart (some h) sr).errMsg = some anvilAlreadyRunningMsg
        ∧ (anvilStart (some h) sr).spawned = false
        ∧ (anvilStart (some h) sr).newState = some h)
      ∧ (∀ (p : Option Nat) (sr₂ : SpawnResult),
          (anvilStart ((anvilStart none (SpawnResult.proc p none)).newState) sr₂).success = false
          ∧ (anvilStart ((anvilStart none (SpawnResult.proc p none)).newState) sr₂).spawned = false
          ∧ (anvilStart ((anvilStart none (SpawnResult.proc p none)).newState) sr₂).newState
              = (anvilStart none (SpawnResult.proc p none)).newState) := by
  intro h sr hk
  constructor
  · have hlive : anvilLive (some h) = true := by simp [anvilLive, hk]
    refine ⟨?_, ?_, ?_, ?_⟩ <;> simp [anvilStart, hlive]
  · intro p sr₂
    refine ⟨rfl, rfl, rfl⟩

/-- C5 witness: the already-running guard at a concrete live handle. -/
theorem anvilStart_alreadyRunning_witness :
    ((anvilStart (some { pid := some 41, killed := false })
        (SpawnResult.proc (some 99) none)).success = false
      ∧ (anvilStart (some { pid := some 41, killed := false })
          (SpawnResult.proc (some 99) none)).errMsg = some anvilAlreadyRunningMsg
      ∧ (anvilStart (some { pid := some 41, killed := false })
          (SpawnResult.proc (some 99) none)).spawned = false
      ∧ (anvilStart (some { pid := some 41, killed := false })
          (SpawnResult.proc (some 99) none)).newState
          = some { pid := some 41, killed := false })
    ∧ (∀ (p : Option Nat) (sr₂ : SpawnResult),
        (anvilStart ((anvilStart none (SpawnResult.proc p none)).newState) sr₂).success = false
        ∧ (anvilStart ((anvilStart none (SpawnResult.proc p none)).newState) sr₂).spawned = false
        ∧ (anvilStart ((anvilStart none (SpawnResult.proc p none)).newState) sr₂).newState
            = (anvilStart none (SpawnResult.proc p none)).newState) :=
  anvilStart_alreadyRunning { pid := some 41, killed := false }
    (SpawnResult.proc (some 99) none) rfl

/-- C7: `cleanupAnvil` is idempotent: after any first call, a second
call changes nothing and sends no termination signal; and when the
registry is already stopped (no live handle) a single call is a no-op
on state with no termination attempt. The embedded function is total,
so no call produces an error. -/
theorem cleanupAnvil_idempotent :
    ∀ st : Option ChildHandle,
      cleanupAnvil (cleanupAnvil st).1 = ((cleanupAnvil st).1, false)
      ∧ (anvilLive st = false → cleanupAnvil st = (st, false)) := by
  intro st
  constructor
  · rcases st with _ | h
    · rfl
    · by_cases hk : h.killed
      · simp [cleanupAnvil, anvilLive, hk]
      · simp [cleanupAnvil, anvilLive, hk]
  · intro hdead
    simp [cleanupAnvil, hdead]

/-- C7 witness: a double cleanup from a live handle, and a cleanup from
the stopped state. -/
theorem cleanupAnvil_idempotent_witness :
    cleanupAnvil (cleanupAnvil (some { pid := some 7, killed := false })).1
      = ((cleanupAnvil (some { pid := some 7, killed := false })).1, false)
    ∧ cleanupAnvil none = (none, false) :=
  ⟨(cleanupAnvil_idempotent (some { pid := some 7, killed := false })).1,
   (cleanupAnvil_idempotent none).2 rfl⟩

/-- C9: the liveness test shared by `anvil_start`, `anvil_status` and
`cleanupAnvil` is exactly "a handle is held and its `killed` flag is
false"; since `killed` records only a kill sent by this server and no
exit listener is attached, a held handle whose process exited on its
own is still reported as running by `anvil_status` and still trips the
already-running guard of `anvil_start`; and no event other than
`anvil_stop` or `cleanupAnvil` ever clears a non-empty slot. -/
theorem anvilLiveness_killedFlag :
    (∀ st : Option ChildHandle,
      anvilLive st = true ↔ ∃ h, st = some h ∧ h.killed = false)
    ∧ (∀ h : ChildHandle, h.killed = false →
        (anvilStatus (anvilStep (some h) AnvilEvent.childExited)).isRunning = true
        ∧ (anvilStatus (anvilStep (some h) AnvilEvent.childExited)).pid = h.pid
        ∧ ∀ sr, (anvilStart (anvilStep (some h) AnvilEvent.childExited) sr).success = false
            ∧ (anvilStart (anvilStep (some h) AnvilEvent.childExited) sr).spawned = false)
    ∧ (∀ (st : Option ChildHandle) (e : AnvilEvent), st ≠ none →
        anvilStep st e = none → e = AnvilEvent.stop ∨ e = AnvilEvent.cleanup) := by
  refine ⟨?_, ?_, ?_⟩
  · intro st
    rcases st with _ | h
    · simp [anvilLive]
    · simp [anvilLive]
  · intro h hk
    have hlive : anvilLive (some h) = true := by simp [anvilLive, hk]
    refine ⟨?_, ?_, ?_⟩
    · simp [anvilStep, anvilStatus, hlive]
    · simp [anvilStep, anvilStatus, hlive]
    · intro sr
      constructor <;> simp [anvilStep, anvilStart, hlive]
  · intro st e hne hstep
    cases e with
    | start sr =>
        exfalso
        rcases st with _ | h
        · exact hne rfl
        · by_cases hk : h.killed
          · have hdead : anvilLive (some h) = false := by simp [anvilLive, hk]
            cases sr with
            | syncThrow m => simp [anvilStep, anvilStart, hdead] at hstep
            | proc p ev => simp [anvilStep, anvilStart, hdead] at hstep
          · have hlive : anvilLive (some h) = true := by simp [anvilLive, hk]
            simp [anvilStep, anvilStart, hlive] at hstep
    | stop => exact Or.inl rfl
    | statusQuery => exact absurd hstep hne
    | cleanup => exact Or.inr rfl
    | childExited => exact absurd hstep hne

/-- C9 witness: a live handle whose process has exited on its own is
still reported as running and still blocks a new start. -/
theorem anvilLiveness_killedFlag_witness :
    (anvilStatus (anvilStep (some { pid := some 13, killed := false })
        AnvilEvent.childExited)).isRunning = true
    ∧ (anvilStart (anvilStep (some { pid := some 13, killed := false })
        AnvilEvent.childExited) (SpawnResult.proc (some 14) none)).success = false :=
  ⟨(anvilLiveness_killedFlag.2.1 { pid := some 13, killed := false } rfl).1,
   ((anvilLiveness_killedFlag.2.1 { pid := some 13, killed := false } rfl).2.2
      (SpawnResult.proc (some 14) none)).1⟩

/- ## Interactive Session Driver (src/tools/chisel.ts, runChiselWithScript) -/

/-- JavaScript `Array.prototype.join` with separator `"\n"`, as used in
`script.join('\n')`. -/
def joinLines : List String → String
  | [] => ""
  | [a] => a
  | a :: b :: rest => a ++ "\n" ++ joinLines (b :: rest)

/-- The concatenation of a list of lines, each terminated by a newline:
the stdin text demanded by the claim "write each line
newline-terminated in the order supplied". -/
def terminatedLines : List String → String
  | [] => ""
  | a :: rest => a ++ "\n" ++ terminatedLines rest

/-- Behaviour of the spawned chisel subprocess in one run: either the
`close` event fires with an exit code after emitting the listed stdout
and stderr chunks, or the `error` event fires (spawn failure). -/
inductive ChiselProcBehavior where
  | closes (outChunks errChunks : List String) (code : Int)
  | errorEvent (message : String)
deriving DecidableEq

/-- Settlement of the promise returned by `runChiselWithScript`. -/
inductive DriverOutcome where
  | resolved (stdout stderr : String)
  | rejected (message : String)
deriving DecidableEq

/-- Observable record of one `runChiselWithScript` call: how many
subprocesses were spawned, the full text written to the subprocess
stdin, whether stdin was closed after that write, and the promise
settlement. -/
structure DriverRun where
  spawnCount : Nat
  stdinContent : String
  stdinClosed : Bool
  outcome : DriverOutcome
deriving DecidableEq

/-- Embedding of `runChiselWithScript` (src/tools/chisel.ts lines
12-47): spawn `chisel` once, accumulate every stdout and stderr chunk
in arrival order, write `script.join('\n') + '\n'` to stdin in one
call and close it; on `close` with code 0 resolve with the accumulated
transcript, on a nonzero code reject with
`"Chisel exited with code <code>: <stderr>"`, and on the `error` event
reject with that error. -/
def runChiselWithScript (script : List String) (b : ChiselProcBehavior) : DriverRun :=
  { spawnCount := 1
    stdinContent := joinLines script ++ "\n"
    stdinClosed := true
    outcome :=
      match b with
      | .closes oc ec code =>
          if code == 0 then
            DriverOutcome.resolved (String.join oc) (String.join ec)
          else
            DriverOutcome.rejected
              ("Chisel exited with code " ++ toString code ++ ": " ++ String.join ec)
      | .errorEvent m => DriverOutcome.rejected m }

/-- On a nonempty script, `script.join('\n') + '\n'` equals the
concatenation of the lines each terminated by a newline. -/
theorem joinLines_terminated (a : String) (l : List String) :
    joinLines (a :: l) ++ "\n" = terminatedLines (a :: l) := by
  induction l generalizing a with
  | nil =>
      show a ++ "\n" = a ++ "\n" ++ ""
      rw [String.append_empty]
  | cons b t ih =>
      show a ++ "\n" ++ joinLines (b :: t) ++ "\n" = a ++ "\n" ++ terminatedLines (b :: t)
      rw [String.append_assoc (a ++ "\n") (joinLines (b :: t)) "\n", ih b]

/-- C6 counterexample: on the empty command list the driver writes a
single bare newline to the subprocess stdin, not the concatenation of
zero newline-terminated lines (the empty string); so the claim, which
quantifies over every ordered list of command lines, fails at `[]`. -/
theorem runChiselWithScript_empty_counterexample :
    (runChiselWithScript [] (ChiselProcBehavior.closes [] [] 0)).stdinContent
      ≠ terminatedLines [] := by
  decide

/-- C6 (amended to nonempty scripts, the only change the empty-list
counterexample forces): for every nonempty ordered list of command
lines, the driver spawns exactly one subprocess, writes exactly the
newline-terminated lines in the order supplied to its stdin, closes
stdin, and accumulates the output and error chunks; a close with exit
code 0 resolves with the accumulated transcript and a nonzero exit
code rejects with an error embedding the accumulated error-stream
text. -/
theorem runChiselWithScript_contract :
    ∀ (script : List String) (b : ChiselProcBehavior), script ≠ [] →
      (runChiselWithScript script b).spawnCount = 1
      ∧ (runChiselWithScript script b).stdinContent = terminatedLines script
      ∧ (runChiselWithScript script b).stdinClosed = true
      ∧ (∀ oc ec code, b = ChiselProcBehavior.closes oc ec code →
          (code = 0 → (runChiselWithScript script b).outcome
              = DriverOutcome.resolved (String.join oc) (String.join ec))
          ∧ (code ≠ 0 → (runChiselWithScript script b).outcome
              = DriverOutcome.rejected
                  ("Chisel exited with code " ++ toString code ++ ": " ++ String.join ec))) := by
  intro script b hne
  refine ⟨rfl, ?_, rfl, ?_⟩
  · rcases script with _ | ⟨a, l⟩
    · exact absurd rfl hne
    · exact joinLines_terminated a l
  · intro oc ec code hb
    subst hb
    constructor
    · intro hc
      simp [runChiselWithScript, hc]
    · intro hc
      simp [runChiselWithScript, hc]

/-- C6 witness: the amended contract at the concrete script
`["1 + 1", "!quit"]` from the spec, with an exit code 0 run. -/
theorem runChiselWithScript_contract_witness :
    (runChiselWithScript ["1 + 1", "!quit"]
        (ChiselProcBehavior.closes [("Welcome to Chisel! "), ("2")] [] 0)).spawnCount = 1
    ∧ (runChiselWithScript ["1 + 1", "!quit"]
        (ChiselProcBehavior.closes [("Welcome to Chisel! "), ("2")] [] 0)).stdinContent
        = terminatedLines ["1 + 1", "!quit"]
    ∧ (runChiselWithScript ["1 + 1", "!quit"]
        (ChiselProcBehavior.closes [("Welcome to Chisel! "), ("2")] [] 0)).stdinClosed = true
    ∧ (∀ oc ec code,
        ChiselProcBehavior.closes [("Welcome to Chisel! "), ("2")] [] (0 : Int)
          = ChiselProcBehavior.closes oc ec code →
        (code = 0 → (runChiselWithScript ["1 + 1", "!quit"]
            (ChiselProcBehavior.closes [("Welcome to Chisel! "), ("2")] [] 0)).outcome
            = DriverOutcome.resolved (String.join oc) (String.join ec))
        ∧ (code ≠ 0 → (runChiselWithScript ["1 + 1", "!quit"]
            (ChiselProcBehavior.closes [("Welcome to Chisel! "), ("2")] [] 0)).outcome
            = DriverOutcome.rejected
                ("Chisel exited with code " ++ toString code ++ ": " ++ String.join ec))) :=
  runChiselWithScript_contract ["1 + 1", "!quit"]
    (ChiselProcBehavior.closes [("Welcome to Chisel! "), ("2")] [] 0) (by decide)

/- ## Session Script Builder (src/tools/chisel.ts, chisel_execute_code) -/

/-- Whether `needle` occurs as a contiguous run inside `hay`
(JavaScript `String.prototype.includes` on the character lists). -/
def hasSub (needle : List Char) : List Char → Bool
  | [] => needle.isEmpty
  | c :: rest => needle.isPrefixOf (c :: rest) || hasSub needle rest

/-- JavaScript `s.includes(sub)`. -/
def includesSub (s sub : String) : Bool :=
  hasSub sub.data s.data

/-- The content test guarding the `!source` line in
`chisel_execute_code`:
`code.includes('=') || code.includes('function') || code.includes('contract')`. -/
def chiselSourceCheck (code : String) : Bool :=
  includesSub code ("=") || includesSub code ("function") || includesSub code ("contract")

/-- The `!save` identifier chosen at script-build time (line 109):
`sessionId || "session_" + Date.now()`, with the clock read `tSave`. -/
def chiselSaveId (sessionId : Option String) (tSave : Nat) : String :=
  jsOrStr sessionId ("session_" ++ toString tSave)

/-- The `sessionId` field echoed in the returned payload (line 135):
`saveSession ? (sessionId || "session_" + Date.now()) : sessionId`,
with the second, independent clock read `tEcho`. -/
def chiselEchoedSessionId (sessionId : Option String) (saveSession : Bool)
    (tEcho : Nat) : Option String :=
  if saveSession then some (jsOrStr sessionId ("session_" ++ toString tEcho)) else sessionId

/-- Embedding of the `chisel_execute_code` script construction
(src/tools/chisel.ts lines 82-114), with the conditional pushes in
source order: optional `!load`, optional `!fork`, optional `!traces`,
the code line, optional `!source` (when the code contains `=`,
`function` or `contract`), optional `!save`, and the terminating
`!quit`. `tSave` is the `Date.now()` read of line 109. -/
def chiselExecuteScript (code : String) (sessionId : Option String)
    (saveSession enableTraces : Bool) (forkUrl : Option String) (tSave : Nat) : List String :=
  (if jsTruthy sessionId then ["!load " ++ sessionId.getD ""] else [])
  ++ (if jsTruthy forkUrl then ["!fork " ++ forkUrl.getD ""] else [])
  ++ (if enableTraces then ["!traces"] else [])
  ++ [code]
  ++ (if chiselSourceCheck code then ["!source"] else [])
  ++ (if saveSession then ["!save " ++ chiselSaveId sessionId tSave] else [])
  ++ ["!quit"]

/-- C2 counterexample: at the claimed input the builder does not
produce the five-element list fork, traces, code, save, exit — a
`!source` line is inserted after the code because `"x = 1"` contains
`=`, so the produced list (here at clock read 0) has six elements. -/
theorem chiselExecuteScript_claimList_counterexample :
    chiselExecuteScript ("x = 1") none true true (some ("https://x")) 0
      ≠ ["!fork https://x", "!traces", "x = 1", "!save session_0", "!quit"] := by
  decide

/-- C2 (amended): at the claimed input the builder produces, for every
build-time clock read, exactly the six-element list fork directive,
trace directive, code line, `!source` directive (inserted because the
code contains `=`), save directive and exit directive, in that fixed
phase order with the absent load phase skipped. The phase order is
fixed, but whether the `!source` introspection line appears does
depend on the content of the code input. -/
theorem chiselExecuteScript_fixedInput :
    ∀ tSave : Nat,
      chiselExecuteScript ("x = 1") none true true (some ("https://x")) tSave
        = ["!fork https://x", "!traces", "x = 1", "!source",
           "!save " ++ ("session_" ++ toString tSave), "!quit"] := by
  intro tSave
  rfl

/-- C8: the identifier embedded in the `!save` directive and the
`sessionId` echoed in the payload come from two independent `Date.now()`
reads. When no `sessionId` parameter is supplied there are clock reads
under which the echoed identifier differs from the one the session was
saved under, so coincidence is not guaranteed; when a nonempty
`sessionId` is supplied both sides equal it for all clock reads. The
built script embeds the save-time identifier verbatim. -/
theorem chiselSessionId_independentClocks :
    (∃ tSave tEcho : Nat,
      some (chiselSaveId none tSave) ≠ chiselEchoedSessionId none true tEcho)
    ∧ (∀ s : String, s ≠ "" → ∀ tSave tEcho : Nat,
        chiselSaveId (some s) tSave = s
        ∧ chiselEchoedSessionId (some s) true tEcho = some s)
    ∧ (∀ (code : String) (tSave : Nat),
        ("!save " ++ chiselSaveId none tSave)
          ∈ chiselExecuteScript code none true false none tSave) := by
  refine ⟨⟨0, 1, by decide⟩, ?_, ?_⟩
  · intro s hs tSave tEcho
    constructor
    · simp [chiselSaveId, jsOrStr, hs]
    · simp [chiselEchoedSessionId, jsOrStr, hs]
  · intro code tSave
    simp [chiselExecuteScript]

/-- C8 witness: a supplied session identifier is echoed unchanged under
any pair of clock reads. -/
theorem chiselSessionId_independentClocks_witness :
    chiselSaveId (some ("my_experiment")) 3 = "my_experiment"
    ∧ chiselEchoedSessionId (some ("my_experiment")) true 8 = some ("my_experiment") :=
  chiselSessionId_independentClocks.2.1 ("my_experiment") (by decide) 3 8

/- ## chisel_execute_code temporary-file effects (src/tools/chisel.ts) -/

/-- One file-system or process effect performed by the
`chisel_execute_code` handler, in order. -/
inductive FsEffect where
  | fileWrite (path : String)
  | fileRead (path : String)
  | runChisel (script : List String)
  | unlinkAttempt (path : String)
deriving DecidableEq

/-- The temporary script path of line 117:
`path.join(PROJECT_ROOT, ".chisel_script_" + Date.now() + ".txt")`,
with the clock read `tFile`. -/
def chiselScriptPath (projectRoot : String) (tFile : Nat) : String :=
  projectRoot ++ "/.chisel_script_" ++ toString tFile ++ ".txt"

/-- Observable outcome of one `chisel_execute_code` invocation: the
temporary script path, the ordered effect trace, the payload fields,
and the set of paths present on disk afterwards. -/
structure ChiselExecOutput where
  scriptPath : String
  effects : List FsEffect
  success : Bool
  echoedSessionId : Option String
  stdout : String
  stderr : String
  errMsg : Option String
  fsFinal : List String
deriving DecidableEq

/-- Embedding of the `chisel_execute_code` handler (src/tools/chisel.ts
lines 79-175). It builds the script, writes it to the temporary path
(clock read `tFile`), then runs `runChiselWithScript` on the in-memory
script — the file is never read back. On a resolved run it attempts
`require('fs').unlinkSync(scriptPath)` inside a try block that ignores
any error (`unlinkOk` says whether that call actually removed the
file) and returns the success payload with the identifier echoed from
the third clock read `tEcho`; on a rejected run the catch block
returns the failure payload without touching the file system. `fs0` is
the set of paths on disk before the call. -/
def chiselExecuteCode (projectRoot code : String) (sessionId : Option String)
    (saveSession enableTraces : Bool) (forkUrl : Option String)
    (tSave tFile tEcho : Nat) (b : ChiselProcBehavior) (unlinkOk : Bool)
    (fs0 : List String) : ChiselExecOutput :=
  let script := chiselExecuteScript code sessionId saveSession enableTraces forkUrl tSave
  let scriptPath := chiselScriptPath projectRoot tFile
  let fs1 := if fs0.contains scriptPath then fs0 else scriptPath :: fs0
  let run := runChiselWithScript script b
  match run.outcome with
  | .resolved out errText =>
      { scriptPath := scriptPath
        effects := [FsEffect.fileWrite scriptPath, FsEffect.runChisel script,
                    FsEffect.unlinkAttempt scriptPath]
        success := true
        echoedSessionId := chiselEchoedSessionId sessionId saveSession tEcho
        stdout := out
        stderr := errText
        errMsg := none
        fsFinal := if unlinkOk then fs1.erase scriptPath else fs1 }
  | .rejected m =>
      { scriptPath := scriptPath
        effects := [FsEffect.fileWrite scriptPath, FsEffect.runChisel script]
        success := false
        echoedSessionId := none
        stdout := ""
        stderr := ""
        errMsg := some m
        fsFinal := fs1 }

/-- C10: `chisel_execute_code` writes the temporary script file
`.chisel_script_<timestamp>.txt` under the project root before running
chisel, never reads it back (the script reaching the runner is the
in-memory command list), attempts deletion only on the success path,
and on every rejected run the catch block returns the failure payload
with the file still on disk. -/
theorem chiselExecuteCode_tempFile :
    ∀ (projectRoot code : String) (sessionId : Option String)
      (saveSession enableTraces : Bool) (forkUrl : Option String)
      (tSave tFile tEcho : Nat) (b : ChiselProcBehavior) (unlinkOk : Bool)
      (fs0 : List String),
      (chiselExecuteCode projectRoot code sessionId saveSession enableTraces forkUrl
          tSave tFile tEcho b unlinkOk fs0).scriptPath = chiselScriptPath projectRoot tFile
      ∧ ((chiselExecuteCode projectRoot code sessionId saveSession enableTraces forkUrl
          tSave tFile tEcho b unlinkOk fs0).success = true →
          (chiselExecuteCode projectRoot code sessionId saveSession enableTraces forkUrl
            tSave tFile tEcho b unlinkOk fs0).effects
          = [FsEffect.fileWrite (chiselScriptPath projectRoot tFile),
             FsEffect.runChisel (chiselExecuteScript code sessionId saveSession
                enableTraces forkUrl tSave),
             FsEffect.unlinkAttempt (chiselScriptPath projectRoot tFile)])
      ∧ ((chiselExecuteCode projectRoot code sessionId saveSession enableTraces forkUrl
          tSave tFile tEcho b unlinkOk fs0).success = false →
          (chiselExecuteCode projectRoot code sessionId saveSession enableTraces forkUrl
            tSave tFile tEcho b unlinkOk fs0).effects
          = [FsEffect.fileWrite (chiselScriptPath projectRoot tFile),
             FsEffect.runChisel (chiselExecuteScript code sessionId saveSession
                enableTraces forkUrl tSave)]
          ∧ chiselScriptPath projectRoot tFile
            ∈ (chiselExecuteCode projectRoot code sessionId saveSession enableTraces forkUrl
                tSave tFile tEcho b unlinkOk fs0).fsFinal)
      ∧ (∀ q, FsEffect.fileRead q
          ∉ (chiselExecuteCode projectRoot code sessionId saveSession enableTraces forkUrl
              tSave tFile tEcho b unlinkOk fs0).effects) := by
  intro projectRoot code sessionId saveSession enableTraces forkUrl tSave tFile tEcho b
    unlinkOk fs0
  rcases hout : (runChiselWithScript (chiselExecuteScript code sessionId saveSession
      enableTraces forkUrl tSave) b).outcome with ⟨out, errText⟩ | m
  · have heq : chiselExecuteCode projectRoot code sessionId saveSession enableTraces forkUrl
        tSave tFile tEcho b unlinkOk fs0
        = { scriptPath := chiselScriptPath projectRoot tFile
            effects := [FsEffect.fileWrite (chiselScriptPath projectRoot tFile),
                        FsEffect.runChisel (chiselExecuteScript code sessionId saveSession
                          enableTraces forkUrl tSave),
                        FsEffect.unlinkAttempt (chiselScriptPath projectRoot tFile)]
            success := true
            echoedSessionId := chiselEchoedSessionId sessionId saveSession tEcho
            stdout := out
            stderr := errText
            errMsg := none
            fsFinal :=
              if unlinkOk then
                (if fs0.contains (chiselScriptPath projectRoot tFile) then fs0
                 else chiselScriptPath projectRoot tFile :: fs0).erase
                  (chiselScriptPath projectRoot tFile)
              else
                (if fs0.contains (chiselScriptPath projectRoot tFile) then fs0
                 else chiselScriptPath projectRoot tFile :: fs0) } := by
      dsimp only [chiselExecuteCode]
      rw [hout]
    rw [heq]
    refine ⟨rfl, fun _ => rfl, fun hfalse => absurd hfalse (by exact fun h => nomatch h), ?_⟩
    intro q hq
    simp at hq
  · have heq : chiselExecuteCode projectRoot code sessionId saveSession enableTraces forkUrl
        tSave tFile tEcho b unlinkOk fs0
        = { scriptPath := chiselScriptPath projectRoot tFile
            effects := [FsEffect.fileWrite (chiselScriptPath projectRoot tFile),
                        FsEffect.runChisel (chiselExecuteScript code sessionId saveSession
                          enableTraces forkUrl tSave)]
            success := false
            echoedSessionId := none
            stdout := ""
            stderr := ""
            errMsg := some m
            fsFinal :=
              if fs0.contains (chiselScriptPath projectRoot tFile) then fs0
              else chiselScriptPath projectRoot tFile :: fs0 } := by
      dsimp only [chiselExecuteCode]
      rw [hout]
    rw [heq]
    refine ⟨rfl, fun htrue => absurd htrue (by exact fun h => nomatch h), fun _ => ⟨rfl, ?_⟩, ?_⟩
    · by_cases hmem : fs0.contains (chiselScriptPath projectRoot tFile)
      · simp only [hmem, if_true]
        exact List.mem_of_elem_eq_true hmem
      · simp only [hmem, if_false]
        exact List.mem_cons_self _ _
    · intro q hq
      simp at hq

/-- C10 witness: a failing run (spawn error event) at concrete inputs
leaves the temporary file on disk. -/
theorem chiselExecuteCode_tempFile_witness :
    (chiselExecuteCode ("/proj") ("x") none false false none 1 5 9
        (ChiselProcBehavior.errorEvent ("spawn chisel ENOENT")) true []).success = false
    ∧ chiselScriptPath ("/proj") 5
      ∈ (chiselExecuteCode ("/proj") ("x") none false false none 1 5 9
          (ChiselProcBehavior.errorEvent ("spawn chisel ENOENT")) true []).fsFinal :=
  ⟨rfl,
   ((chiselExecuteCode_tempFile ("/proj") ("x") none false false none 1 5 9
      (ChiselProcBehavior.errorEvent ("spawn chisel ENOENT")) true []).2.2.1 rfl).2⟩
